import Mathlib

/-!
Verification of the move-decision orchestration engine of a chess web app.

The TypeScript sources are shallowly embedded as Lean definitions:

* `countMaterial` / `determineGamePhase` — `src/utils/chessUtils.ts`
  (`countMaterial`, `determineGamePhase`);
* `countMaterialV2` / `determineGamePhaseV2` — the phase classifier and
  material counter of the tactical-analysis utility module
  (`determineGamePhase(game, moveCount)` variant keyed by letter piece types);
* `getPieceValue` / `scoreMove` — `formatAndScoreMoves` of the same module;
* `parseEvaluation` — the critic-output parsing of
  `createMoveEvaluatorTool` in `src/app/api/ai-move-v2/route.ts`;
* `agenticLoop` / `runAgenticWorkflowChain` — `runAgenticWorkflowChain`
  of `src/app/api/ai-move-v2/route.ts`;
* `v3RetryLoop` / `v3DecideMove` — the bounded validation/retry loop of the
  v3 move route; `v1DecideMove` — the single-shot route with the flagged
  fallback move;
* `generateStrategy` / `strategyCheck` / `tacticalAnalysisRoute` — the
  strategic-plan cache of `src/hooks/useTacticalStrategy.ts` together with
  the tactical-analysis server route.

External collaborators (the chess.js rules engine and the LLM oracle) are
modelled by their observable outputs: oracle answers are arbitrary
functions from the attempt index, and rules-engine verdicts (legality,
check, checkmate, attacked squares) are fields of the per-move inputs.
-/

/- ### Rules-engine data: board squares and pieces (chess.js `game.board()`) -/

/-- A piece as reported by the rules engine: a color tag and a type tag.
chess.js reports `type` as a single letter (`"p"`, `"n"`, `"b"`, `"r"`,
`"q"`, `"k"`). -/
structure Piece where
  color : String
  type : String
deriving DecidableEq

/-- An 8×8 board of optional pieces, as returned by `game.board()`. -/
def Board := Fin 8 → Fin 8 → Option Piece

/-- The piece types the rules engine actually emits (chess.js piece symbols). -/
def validPieceType (t : String) : Prop :=
  t ∈ ["p", "n", "b", "r", "q", "k"]

instance (t : String) : Decidable (validPieceType t) := by
  unfold validPieceType; infer_instance

/- ### `src/utils/chessUtils.ts` -/

/-- The value table of `countMaterial` in `chessUtils.ts`:
`{ pawn: 1, knight: 3, bishop: 3, rook: 5, queen: 9, king: 0 }`, with the
JS lookup-miss default `|| 0`.  Note the keys are full piece names. -/
def pieceValuesByName (t : String) : Nat :=
  if t = "pawn" then 1
  else if t = "knight" then 3
  else if t = "bishop" then 3
  else if t = "rook" then 5
  else if t = "queen" then 9
  else if t = "king" then 0
  else 0

/-- `countMaterial(game)` of `chessUtils.ts`: sum the table value of every
piece on the board (rows and files 0..7). -/
def countMaterial (board : Board) : Nat :=
  (List.finRange 8).foldl (fun count i =>
    (List.finRange 8).foldl (fun count j =>
      match board i j with
      | some piece => count + pieceValuesByName piece.type
      | none => count) count) 0

/-- `determineGamePhase(game, recentMoves)` of `chessUtils.ts`. -/
def determineGamePhase (board : Board) (recentMoves : List String) : String :=
  let moveCount := recentMoves.length
  let materialCount := countMaterial board
  if moveCount ≤ 8 then "opening"
  else if moveCount ≤ 20 ∧ materialCount ≥ 20 then "middlegame"
  else if materialCount < 20 then "endgame"
  else "middlegame"

/- ### The tactical-analysis utility module (letter-keyed variant) -/

/-- The value table of the letter-keyed `countMaterial` variant:
`{ p: 1, n: 3, b: 3, r: 5, q: 9, k: 0 }` with the `|| 0` default. -/
def pieceValuesByLetter (t : String) : Nat :=
  if t = "p" then 1
  else if t = "n" then 3
  else if t = "b" then 3
  else if t = "r" then 5
  else if t = "q" then 9
  else if t = "k" then 0
  else 0

/-- The letter-keyed `countMaterial(game)` variant. -/
def countMaterialV2 (board : Board) : Nat :=
  (List.finRange 8).foldl (fun count i =>
    (List.finRange 8).foldl (fun count j =>
      match board i j with
      | some piece => count + pieceValuesByLetter piece.type
      | none => count) count) 0

/-- `determineGamePhase(game, moveCount)` of the tactical-analysis utility
module. -/
def determineGamePhaseV2 (board : Board) (moveCount : Nat) : String :=
  let materialCount := countMaterialV2 board
  if moveCount ≤ 2 then "opening"
  else if materialCount < 20 then "endgame"
  else "middlegame"

/- ### `formatAndScoreMoves`: the deterministic move scorer -/

/-- `getPieceValue(piece)` of the scoring module:
`{ p: 1, n: 3, b: 3, r: 5, q: 9, k: 0 }` with the `|| 0` default (Int,
since scores can go negative). -/
def getPieceValue (piece : String) : Int :=
  if piece = "p" then 1
  else if piece = "n" then 3
  else if piece = "b" then 3
  else if piece = "r" then 5
  else if piece = "q" then 9
  else if piece = "k" then 0
  else 0

/-- `move.san.includes('O-O')` — substring containment test. -/
def sanIncludesCastling (san : String) : Bool :=
  (san.splitOn "O-O").length > 1

/-- The per-move input of `formatAndScoreMoves`: the verbose move fields
from the rules engine plus the engine's verdicts on the simulated position
after the move (`testGame.isCheckmate()`, `testGame.isCheck()`,
`testGame.isAttacked(move.to, opponentColor)`). -/
structure ScoredMoveInput where
  san : String
  piece : String
  captured : Option String
  promotion : Option String
  checkmateAfter : Bool
  checkAfter : Bool
  defendedAfter : Bool
deriving DecidableEq

/-- The score accumulation of `formatAndScoreMoves` for one move: capture
bonus, promotion bonus, castling bonus, checkmate/check bonus, and the
defended-square penalty (halved or trade-adjusted). -/
def scoreMove (m : ScoredMoveInput) : Int :=
  let score : Int := 0
  let score := match m.captured with
    | some c => score + getPieceValue c * 10
    | none => score
  let score := match m.promotion with
    | some p => score + (getPieceValue p - 1) * 10
    | none => score
  let score := if sanIncludesCastling m.san then score + 5 else score
  let score :=
    if m.checkmateAfter then score + 1000
    else if m.checkAfter then score + 15
    else score
  let score :=
    if m.defendedAfter then
      match m.captured with
      | none => score - getPieceValue m.piece * 5
      | some c =>
          if getPieceValue m.piece > getPieceValue c then
            score - (getPieceValue m.piece - getPieceValue c) * 5
          else score
    else score
  score

/- ### `runAgenticWorkflowChain` (proposer/critic loop, ai-move-v2) -/

/-- `MoveCandidate` of `route.ts` (field `notation` is called `san` here;
`from`/`to` become `fromSq`/`toSq`). -/
structure MoveCandidate where
  san : String
  fromSq : String
  toSq : String
  piece : String
  captured : Option String
  description : String
deriving DecidableEq

/-- `MoveEvaluation` of `route.ts`. -/
structure MoveEvaluation where
  approved : Bool
  score : Nat
  reasoning : String
  suggestions : Option (List String)
deriving DecidableEq

/-- One entry of `attemptHistory`: `{ move, evaluation }`. -/
structure Attempt where
  move : MoveCandidate
  evaluation : MoveEvaluation
deriving DecidableEq

/-- The observable result of `runAgenticWorkflowChain`.  `usedPoolFallback`
records whether the terminal best-rejected-move fallback branch (pool
exhausted) was taken. -/
structure WorkflowResult where
  move : String
  evaluation : MoveEvaluation
  iterations : Nat
  attemptHistory : List Attempt
  usedPoolFallback : Bool
deriving DecidableEq

/-- `attemptHistory.reduce((best, current) => current.evaluation.score >
best.evaluation.score ? current : best)` — JS `reduce` with no initial
value (throws on an empty array, hence `Option`). -/
def reduceBest : List Attempt → Option Attempt
  | [] => none
  | h :: t => some (t.foldl (fun best current =>
      if current.evaluation.score > best.evaluation.score then current
      else best) h)

/-- The final-move step after the loop: `game.move(selectedMove!.notation)`.
A null `selectedMove` is a runtime TypeError and an illegal final move a
thrown error; both surface as the route's structured 500 error. -/
def finishFinalMove (legalSans : List String) (iteration : Nat)
    (history : List Attempt) (selected : Option (MoveCandidate × MoveEvaluation))
    (poolExhausted : Bool) : Except String WorkflowResult :=
  match selected with
  | none => .error "Final move execution failed"
  | some (m, e) =>
      if m.san ∈ legalSans then
        .ok { move := m.san, evaluation := e, iterations := iteration,
              attemptHistory := history, usedPoolFallback := poolExhausted }
      else .error "Final move execution failed"

/-- The `while (iteration < maxIterations)` body of
`runAgenticWorkflowChain`, recursing on the remaining iteration budget.
`selector i` is the parsed `MOVE:` token of the move-selector chain on
iteration `i` (`none` when the marker is missing) and `evaluator i` the
critic evaluation the evaluator tool returns on iteration `i`. -/
def agenticLoop (selector : Nat → Option String)
    (evaluator : Nat → MoveEvaluation) (legalSans : List String) :
    Nat → Nat → List MoveCandidate → List Attempt →
    Option (MoveCandidate × MoveEvaluation) → Except String WorkflowResult
  | 0, iteration, _pool, history, selected =>
      finishFinalMove legalSans iteration history selected false
  | fuel + 1, iteration, pool, history, _selected =>
      let iter := iteration + 1
      match selector iter with
      | none => .error "Move Selector Chain failed to propose a move"
      | some chosen =>
        match pool.find? (fun m => m.san == chosen) with
        | none => .error "Selected move not found in available moves"
        | some selectedMove =>
          let evaluation := evaluator iter
          let history2 := history ++ [⟨selectedMove, evaluation⟩]
          if evaluation.approved then
            finishFinalMove legalSans iter history2
              (some (selectedMove, evaluation)) false
          else
            let pool2 := pool.filter (fun m => !(m.san == selectedMove.san))
            if pool2.isEmpty then
              match reduceBest history2 with
              | none => .error "Reduce of empty array with no initial value"
              | some bestAttempt =>
                  finishFinalMove legalSans iter history2
                    (some (bestAttempt.move, bestAttempt.evaluation)) true
            else
              agenticLoop selector evaluator legalSans fuel iter pool2 history2
                (some (selectedMove, evaluation))

/-- `runAgenticWorkflowChain` of `route.ts`: `maxIterations = 5`,
`iteration = 0`, empty attempt history, null `selectedMove`; the legal-move
set is the `formattedMoves` list built from `game.moves)`. -/
def runAgenticWorkflowChain (moves : List MoveCandidate)
    (selector : Nat → Option String) (evaluator : Nat → MoveEvaluation) :
    Except String WorkflowResult :=
  agenticLoop selector evaluator (moves.map (fun m => m.san)) 5 0 moves [] none

/- ### The single-role validation/retry loop (v3 route) and the flagged
fallback (v1 route) -/

/-- The `while (!move && attempts < maxAttempts)` retry loop of the v3
route, recursing on the remaining attempt budget.  `oracle i` is the parsed
`MOVE:` token of attempt `i` (`none` when the response has no `MOVE:`
marker); a proposed notation is applied via the rules engine, which accepts
exactly the members of the legal-move set. -/
def v3RetryLoop (legal : List String) (oracle : Nat → Option String) :
    Nat → Nat → Except String String
  | 0, _attempts => .error "Invalid move after 5 attempts"
  | fuel + 1, attempts =>
      let attempts2 := attempts + 1
      match oracle attempts2 with
      | none => v3RetryLoop legal oracle fuel attempts2
      | some moveNotation =>
          if moveNotation ∈ legal then .ok moveNotation
          else v3RetryLoop legal oracle fuel attempts2

/-- The v3 route's decision call: up to `maxAttempts = 5` tries, then the
thrown error surfaces as the structured 500 error. -/
def v3DecideMove (legal : List String) (oracle : Nat → Option String) :
    Except String String :=
  v3RetryLoop legal oracle 5 0

/-- The v1 route's response shape: `fallback` is the compatibility flag
(absent, i.e. `false`, on the normal path). -/
structure V1Response where
  move : String
  llmMove : String
  reasoning : String
  fallback : Bool
deriving DecidableEq

/-- The v1 route's decision step after parsing: find the chosen notation
among the legal moves (`moves.find(move => move.san === chosenMoveNotation)`);
on a miss, apply `moves[0]` and flag the response with `fallback: true`. -/
def v1DecideMove (legalSans : List String) (parsedMove : Option String)
    (reasoning : String) : Except String V1Response :=
  match parsedMove with
  | none => .error "Could not parse move from LLM response"
  | some chosenMoveNotation =>
      match legalSans.find? (fun san => san == chosenMoveNotation) with
      | some chosenSan =>
          .ok { move := chosenSan, llmMove := chosenMoveNotation,
                reasoning := reasoning, fallback := false }
      | none =>
          match legalSans with
          | [] => .error "Invalid fallback move"
          | fallbackSan :: _ =>
              .ok { move := fallbackSan, llmMove := chosenMoveNotation,
                    reasoning := "Fallback move - LLM returned invalid notation",
                    fallback := true }

/- ### Critic-output parsing (`createMoveEvaluatorTool`) -/

/-- The parsing block of `createMoveEvaluatorTool`: `scoreMatch` is the
captured digits of `SCORE:` (missing score defaults to 5), `approvedMatch`
the captured `true`/`false` token of `APPROVED:` (case-insensitive;
when absent, approval means score ≥ 7), plus the reasoning and suggestions
captures. -/
def parseEvaluation (scoreMatch : Option Nat) (approvedMatch : Option String)
    (reasoningMatch : Option String) (suggestionsMatch : Option String) :
    MoveEvaluation :=
  let score := match scoreMatch with
    | some n => n
    | none => 5
  let approved := match approvedMatch with
    | some captured => captured.toLower == "true"
    | none => decide (score ≥ 7)
  let reasoning := match reasoningMatch with
    | some r => r
    | none => "No reasoning provided"
  let suggestions := match suggestionsMatch with
    | some sg => some [sg]
    | none => none
  { approved := approved, score := score, reasoning := reasoning,
    suggestions := suggestions }

/- ### Strategic Plan Cache (`useTacticalStrategy.ts` + tactical-analysis
route) -/

/-- `TacticalStrategy` of `useTacticalStrategy.ts`. -/
structure TacticalStrategy where
  primaryGoal : String
  tacticalPatterns : List String
  pieceCoordination : String
  keySquares : List String
  pawnStructure : String
  opponentThreats : String
  movePriorities : List String
deriving DecidableEq

/-- `StrategyData` (timestamp and fen echoes omitted: wall-clock time is
outside the embedding). -/
structure StrategyData where
  strategy : TacticalStrategy
  reasoning : String
  gamePhase : String
deriving DecidableEq

/-- The hook state relevant to the cache: the current plan, the stored
data, the last-refresh ply counter and the non-fatal error message. -/
structure StrategyState where
  currentStrategy : Option TacticalStrategy
  strategyData : Option StrategyData
  lastUpdateMove : Int
  error : Option String
deriving DecidableEq

/-- `STRATEGY_UPDATE_INTERVAL = 3`. -/
def STRATEGY_UPDATE_INTERVAL : Int := 3

/-- `shouldUpdateStrategy`: `moveCount - lastUpdateMove >=
STRATEGY_UPDATE_INTERVAL`. -/
def shouldUpdateStrategy (moveCount lastUpdateMove : Int) : Bool :=
  moveCount - lastUpdateMove ≥ STRATEGY_UPDATE_INTERVAL

/-- What the client observes from one `/api/tactical-analysis` call. -/
inductive ServerResult where
  | ok (data : StrategyData)
  | gameOverResponse
  | httpError (message : String)
deriving DecidableEq

/-- The fixed fallback strategy the tactical-analysis route builds when the
oracle response cannot be parsed as JSON (`catch (parseError)` branch). -/
def defaultStrategy : TacticalStrategy :=
  { primaryGoal := "Develop pieces and control the center"
    tacticalPatterns := ["Control key central squares",
      "Develop pieces harmoniously", "Maintain king safety"]
    pieceCoordination := "Coordinate pieces for central control"
    keySquares := ["e4", "e5", "d4", "d5"]
    pawnStructure := "Maintain solid pawn structure"
    opponentThreats := "Watch for tactical shots and counterplay"
    movePriorities := ["Develop pieces", "Control center", "Castle"] }

/-- The tactical-analysis server route after the input checks: on a
game-over position it answers 400 with `gameOver: true`; a thrown oracle
call (`oracleContent = none`) becomes the 500 error; otherwise the oracle
text is parsed as JSON and a parse failure is silently replaced by
`defaultStrategy` in a 200 response.  `parseJson` stands for the
JSON-extraction of the route (` ```json ` fence or brace match +
`JSON.parse`). -/
def tacticalAnalysisRoute (gameOver : Bool) (gamePhase : String)
    (oracleContent : Option String)
    (parseJson : String → Option StrategyData) : ServerResult :=
  if gameOver then .gameOverResponse
  else
    match oracleContent with
    | none => .httpError "Tactical analysis error"
    | some response =>
        match parseJson response with
        | some strategyData => .ok strategyData
        | none =>
            .ok { strategy := defaultStrategy
                  reasoning :=
                    if response = "" then
                      "Generated basic strategy due to parsing error"
                    else response
                  gamePhase := gamePhase }

/-- `generateStrategy` of `useTacticalStrategy.ts` as a state transformer:
`setError(null)` upfront; on a 200 response store the data, the strategy
and stamp `lastUpdateMove := moveCount`; on a game-over response return
with no further change; on any other failure only record the non-fatal
error message thrown (`Failed to generate tactical strategy`). -/
def generateStrategy (s : StrategyState) (moveCount : Int)
    (result : ServerResult) : StrategyState :=
  let s1 := { s with error := none }
  match result with
  | .ok data =>
      { s1 with strategyData := some data,
                currentStrategy := some data.strategy,
                lastUpdateMove := moveCount }
  | .gameOverResponse => s1
  | .httpError _ =>
      { s1 with error := some "Failed to generate tactical strategy" }

/-- The auto-update effect of the hook (steady state, not loading): calls
`generateStrategy` exactly when `shouldUpdateStrategy()` holds.  The
boolean of the pair records whether a regeneration request was issued. -/
def strategyCheck (s : StrategyState) (moveCount : Int)
    (result : ServerResult) : StrategyState × Bool :=
  if shouldUpdateStrategy moveCount s.lastUpdateMove then
    (generateStrategy s moveCount result, true)
  else (s, false)

/-- `clearStrategy` of the hook. -/
def clearStrategy (_s : StrategyState) : StrategyState :=
  { currentStrategy := none, strategyData := none,
    lastUpdateMove := 0, error := none }

/- ### Spec-side selection rule for the terminal fallback -/

/-- The maximum evaluation score over a list of attempts. -/
def maxAttemptScore (l : List Attempt) : Nat :=
  l.foldl (fun m a => max m a.evaluation.score) 0

/-- Modelled from the spec: select the AttemptRecord with the highest
evaluation score among all recorded attempts, ties broken by the earliest
attempt — i.e. the first list entry whose score equals the maximum. -/
def argmaxEarliest (l : List Attempt) : Option Attempt :=
  l.find? (fun a => a.evaluation.score == maxAttemptScore l)

/-- Plan distinct from the fixed default, held before a failing refresh. -/
def c9prevPlan : TacticalStrategy :=
  { primaryGoal := "Attack the exposed king on the h-file"
    tacticalPatterns := ["Rook lift"]
    pieceCoordination := "Queen and rook battery"
    keySquares := ["h7"]
    pawnStructure := "Keep the kingside pawns back"
    opponentThreats := "Counterplay on the c-file"
    movePriorities := ["Qh5"] }

/-- Cache state holding `c9prevPlan` before a failing refresh. -/
def c9prevState : StrategyState :=
  { currentStrategy := some c9prevPlan, strategyData := none,
    lastUpdateMove := 0, error := none }

/- ### Concrete witnesses -/

/-- A pawn push candidate used by the C1 witness. -/
def c1demoMove : MoveCandidate :=
  ⟨"e5", "e7", "e5", "p", none, "P from e7 to e5"⟩

/-- The two candidates of the C2 witness run. -/
def c2demoMoves : List MoveCandidate :=
  [⟨"e5", "e7", "e5", "p", none, "P from e7 to e5"⟩,
   ⟨"Nf6", "g8", "f6", "n", none, "N from g8 to f6"⟩]

/-- A selector script proposing the two candidates in order. -/
def c2demoSelector : Nat → Option String :=
  fun i => if i = 1 then some "e5" else some "Nf6"

/-- A critic script rejecting everything with tied scores. -/
def c2demoEvaluator : Nat → MoveEvaluation :=
  fun i => if i = 1 then ⟨false, 3, "weak", none⟩
           else ⟨false, 3, "also weak", none⟩

/-- The result of the C2 witness run: both candidates rejected, the pool
exhausted, and the tie broken in favor of the earliest attempt. -/
def c2demoResult : WorkflowResult :=
  { move := "e5", evaluation := ⟨false, 3, "weak", none⟩, iterations := 2,
    attemptHistory :=
      [⟨⟨"e5", "e7", "e5", "p", none, "P from e7 to e5"⟩,
        ⟨false, 3, "weak", none⟩⟩,
       ⟨⟨"Nf6", "g8", "f6", "n", none, "N from g8 to f6"⟩,
        ⟨false, 3, "also weak", none⟩⟩],
    usedPoolFallback := true }

/-- The result of the C3 witness run: first proposal approved. -/
def c3demoResult : WorkflowResult :=
  { move := "e5", evaluation := ⟨true, 8, "strong", none⟩, iterations := 1,
    attemptHistory :=
      [⟨⟨"e5", "e7", "e5", "p", none, "P from e7 to e5"⟩,
        ⟨true, 8, "strong", none⟩⟩],
    usedPoolFallback := false }

/-- A checkmating queen move for the C5 witness. -/
def c5demoMate : ScoredMoveInput :=
  ⟨"Qh5", "q", none, none, true, false, false⟩

/-- A quiet pawn move for the C5 witness. -/
def c5demoQuiet : ScoredMoveInput :=
  ⟨"e5", "p", none, none, false, false, false⟩

/-- Fresh cache state for the C8 witness. -/
def c8demoState : StrategyState :=
  { currentStrategy := none, strategyData := none,
    lastUpdateMove := 0, error := none }

/-- Regenerated plan data for the C8 witness. -/
def c8demoData : StrategyData :=
  { strategy := defaultStrategy, reasoning := "keep developing",
    gamePhase := "opening" }

/-- A board filled with white pawns (letter-typed, as the rules engine
reports them) for the C10 witness. -/
def c10demoBoard : Board := fun _ _ => some ⟨"w", "p"⟩

/- ### Proofs -/

/- ### Helper lemmas about the material folds -/

theorem pieceValuesByName_valid_eq_zero (t : String) (h : validPieceType t) :
    pieceValuesByName t = 0 := by
  simp only [validPieceType, List.mem_cons, List.mem_singleton] at h
  rcases h with rfl | rfl | rfl | rfl | rfl | rfl | h
  · rfl
  · rfl
  · rfl
  · rfl
  · rfl
  · rfl
  · simp at h

theorem countMaterial_inner_valid (board : Board) (i : Fin 8)
    (h : ∀ j p, board i j = some p → validPieceType p.type) :
    ∀ (l : List (Fin 8)) (c : Nat),
      l.foldl (fun count j =>
        match board i j with
        | some piece => count + pieceValuesByName piece.type
        | none => count) c = c := by
  intro l
  induction l with
  | nil => intro c; rfl
  | cons j l ih =>
    intro c
    simp only [List.foldl_cons]
    cases hb : board i j with
    | none => exact ih c
    | some p =>
      simp only [pieceValuesByName_valid_eq_zero p.type (h j p hb), Nat.add_zero]
      exact ih c

theorem countMaterial_valid_eq_zero (board : Board)
    (h : ∀ i j p, board i j = some p → validPieceType p.type) :
    countMaterial board = 0 := by
  unfold countMaterial
  have houter : ∀ (l : List (Fin 8)) (c : Nat),
      l.foldl (fun count i =>
        (List.finRange 8).foldl (fun count j =>
          match board i j with
          | some piece => count + pieceValuesByName piece.type
          | none => count) count) c = c := by
    intro l
    induction l with
    | nil => intro c; rfl
    | cons i l ih =>
      intro c
      simp only [List.foldl_cons]
      rw [countMaterial_inner_valid board i (h i) (List.finRange 8) c]
      exact ih c
  exact houter (List.finRange 8) 0

/-- The source's four-branch phase classifier collapses to the spec's
three-case policy: opening while few plies, else endgame below the material
threshold 20, else middlegame. -/
theorem determineGamePhase_eq_policy (board : Board) (recentMoves : List String) :
    determineGamePhase board recentMoves =
      (if recentMoves.length ≤ 8 then "opening"
       else if countMaterial board < 20 then "endgame"
       else "middlegame") := by
  unfold determineGamePhase
  dsimp only
  split_ifs <;> first | rfl | omega

theorem determineGamePhaseV2_eq_policy (board : Board) (moveCount : Nat) :
    determineGamePhaseV2 board moveCount =
      (if moveCount ≤ 2 then "opening"
       else if countMaterialV2 board < 20 then "endgame"
       else "middlegame") := by
  rfl

theorem getPieceValue_nonneg (s : String) : 0 ≤ getPieceValue s := by
  unfold getPieceValue
  split_ifs <;> omega

theorem getPieceValue_le_nine (s : String) : getPieceValue s ≤ 9 := by
  unfold getPieceValue
  split_ifs <;> omega

theorem scoreMove_checkmate_lower (m : ScoredMoveInput)
    (h : m.checkmateAfter = true) : 945 ≤ scoreMove m := by
  obtain ⟨san, piece, captured, promotion, mate, chk, defended⟩ := m
  subst h
  have hp0 := getPieceValue_nonneg piece
  have hp9 := getPieceValue_le_nine piece
  cases captured with
  | none =>
    cases promotion with
    | none => simp only [scoreMove]; split_ifs <;> first | omega | simp_all
    | some pr =>
      have := getPieceValue_nonneg pr
      have := getPieceValue_le_nine pr
      simp only [scoreMove]; split_ifs <;> first | omega | simp_all
  | some c =>
    have := getPieceValue_nonneg c
    have := getPieceValue_le_nine c
    cases promotion with
    | none => simp only [scoreMove]; split_ifs <;> first | omega | simp_all
    | some pr =>
      have := getPieceValue_nonneg pr
      have := getPieceValue_le_nine pr
      simp only [scoreMove]; split_ifs <;> first | omega | simp_all

theorem scoreMove_not_checkmate_upper (m : ScoredMoveInput)
    (h : m.checkmateAfter = false) : scoreMove m ≤ 190 := by
  obtain ⟨san, piece, captured, promotion, mate, chk, defended⟩ := m
  subst h
  have hp0 := getPieceValue_nonneg piece
  have hp9 := getPieceValue_le_nine piece
  cases captured with
  | none =>
    cases promotion with
    | none => simp only [scoreMove]; split_ifs <;> first | omega | simp_all
    | some pr =>
      have := getPieceValue_nonneg pr
      have := getPieceValue_le_nine pr
      simp only [scoreMove]; split_ifs <;> first | omega | simp_all
  | some c =>
    have := getPieceValue_nonneg c
    have := getPieceValue_le_nine c
    cases promotion with
    | none => simp only [scoreMove]; split_ifs <;> first | omega | simp_all
    | some pr =>
      have := getPieceValue_nonneg pr
      have := getPieceValue_le_nine pr
      simp only [scoreMove]; split_ifs <;> first | omega | simp_all

theorem le_foldl_max (t : List Attempt) :
    ∀ init : Nat, init ≤ t.foldl (fun m a => max m a.evaluation.score) init := by
  induction t with
  | nil => intro init; exact le_refl _
  | cons c t ih =>
    intro init
    simp only [List.foldl_cons]
    exact le_trans (Nat.le_max_left _ _) (ih _)

/-- The JS `reduce` with strict-improvement replacement computes exactly
the earliest maximal-score attempt. -/
theorem reduceBest_eq_argmaxEarliest (t : List Attempt) :
    ∀ h : Attempt, argmaxEarliest (h :: t) = reduceBest (h :: t) := by
  induction t with
  | nil =>
    intro h
    simp only [argmaxEarliest, maxAttemptScore, reduceBest, List.foldl_cons,
      List.foldl_nil, List.find?]
    rw [Nat.zero_max]
    simp
  | cons c t ih =>
    intro h
    by_cases hc : c.evaluation.score > h.evaluation.score
    · -- the fold keeps c; h is strictly below the max, so find? skips it
      have hstep : reduceBest (h :: c :: t) = reduceBest (c :: t) := by
        simp only [reduceBest, List.foldl_cons]
        rw [if_pos hc]
      have hmax : maxAttemptScore (h :: c :: t) = maxAttemptScore (c :: t) := by
        simp only [maxAttemptScore, List.foldl_cons]
        congr 1
        omega
      have hlt : h.evaluation.score < maxAttemptScore (c :: t) := by
        have : max 0 c.evaluation.score ≤ maxAttemptScore (c :: t) := by
          simp only [maxAttemptScore, List.foldl_cons]
          exact le_foldl_max t _
        omega
      rw [hstep, ← ih c]
      simp only [argmaxEarliest]
      rw [hmax]
      rw [List.find?_cons_of_neg]
      simp only [beq_iff_eq]
      omega
    · -- the fold keeps h
      have hstep : reduceBest (h :: c :: t) = reduceBest (h :: t) := by
        simp only [reduceBest, List.foldl_cons]
        rw [if_neg hc]
      have hmax : maxAttemptScore (h :: c :: t) = maxAttemptScore (h :: t) := by
        simp only [maxAttemptScore, List.foldl_cons]
        congr 1
        omega
      have hle : h.evaluation.score ≤ maxAttemptScore (h :: t) := by
        have : max 0 h.evaluation.score ≤ maxAttemptScore (h :: t) := by
          simp only [maxAttemptScore, List.foldl_cons]
          exact le_foldl_max t _
        omega
      rw [hstep, ← ih h]
      simp only [argmaxEarliest]
      rw [hmax]
      by_cases hh : h.evaluation.score = maxAttemptScore (h :: t)
      · rw [List.find?_cons_of_pos, List.find?_cons_of_pos]
        · simp only [beq_iff_eq]
          omega
        · simp only [beq_iff_eq]
          omega
      · rw [List.find?_cons_of_neg, List.find?_cons_of_neg, List.find?_cons_of_neg]
        · simp only [beq_iff_eq]
          omega
        · simp only [beq_iff_eq]
          omega
        · simp only [beq_iff_eq]
          omega

/- ### Invariants of the agentic workflow loop -/

theorem finishFinalMove_ok {legalSans : List String} {iteration : Nat}
    {history : List Attempt} {selected : Option (MoveCandidate × MoveEvaluation)}
    {poolExhausted : Bool} {r : WorkflowResult}
    (h : finishFinalMove legalSans iteration history selected poolExhausted = .ok r) :
    (∃ m e, selected = some (m, e) ∧ r.move = m.san ∧ r.evaluation = e)
      ∧ r.move ∈ legalSans ∧ r.iterations = iteration
      ∧ r.attemptHistory = history ∧ r.usedPoolFallback = poolExhausted := by
  unfold finishFinalMove at h
  split at h
  · exact absurd h (by simp)
  · next m e =>
    split at h
    · next hmem =>
      cases h
      exact ⟨⟨m, e, rfl, rfl, rfl⟩, hmem, rfl, rfl, rfl⟩
    · exact absurd h (by simp)

theorem agenticLoop_ok_inv (selector : Nat → Option String)
    (evaluator : Nat → MoveEvaluation) (legalSans : List String) :
    ∀ (fuel iteration : Nat) (pool : List MoveCandidate)
      (history : List Attempt)
      (selected : Option (MoveCandidate × MoveEvaluation)) (r : WorkflowResult),
      agenticLoop selector evaluator legalSans fuel iteration pool history
          selected = .ok r →
      r.move ∈ legalSans
        ∧ r.iterations ≤ iteration + fuel
        ∧ r.attemptHistory.length ≤ history.length + fuel
        ∧ (r.usedPoolFallback = true →
            ∃ a, reduceBest r.attemptHistory = some a
              ∧ r.move = a.move.san ∧ r.evaluation = a.evaluation) := by
  intro fuel
  induction fuel with
  | zero =>
    intro iteration pool history selected r h
    unfold agenticLoop at h
    obtain ⟨_, hmem, hit, hhist, hfb⟩ := finishFinalMove_ok h
    refine ⟨hmem, by omega, by rw [hhist]; omega, ?_⟩
    intro hcontra
    rw [hfb] at hcontra
    exact absurd hcontra (by simp)
  | succ fuel ih =>
    intro iteration pool history selected r h
    unfold agenticLoop at h
    dsimp only at h
    split at h
    · exact absurd h (by simp)
    · next chosen hselr =>
      split at h
      · exact absurd h (by simp)
      · next selectedMove hfind =>
        split at h
        · -- approved: terminal success through finishFinalMove
          obtain ⟨_, hmem, hit, hhist, hfb⟩ := finishFinalMove_ok h
          refine ⟨hmem, by omega, ?_, ?_⟩
          · rw [hhist]
            simp only [List.length_append, List.length_cons, List.length_nil]
            omega
          · intro hcontra
            rw [hfb] at hcontra
            exact absurd hcontra (by simp)
        · split at h
          · -- pool exhausted: terminal fallback via reduceBest
            split at h
            · exact absurd h (by simp)
            · next bestAttempt hred =>
              obtain ⟨⟨m, e, hsel, hmv, hev⟩, hmem, hit, hhist, hfb⟩ :=
                finishFinalMove_ok h
              cases hsel
              refine ⟨hmem, by omega, ?_, ?_⟩
              · rw [hhist]
                simp only [List.length_append, List.length_cons, List.length_nil]
                omega
              · intro _
                refine ⟨bestAttempt, ?_, hmv, hev⟩
                rw [hhist]
                exact hred
          · -- pool still nonempty: loop again
            obtain ⟨hmem, hit, hlen, hfb⟩ := ih (iteration + 1) _ _ _ r h
            refine ⟨hmem, by omega, ?_, hfb⟩
            simp only [List.length_append, List.length_cons, List.length_nil] at hlen
            omega

/- ### Invariants of the single-role retry loop -/

theorem v3RetryLoop_ok_mem (legal : List String) (oracle : Nat → Option String) :
    ∀ (fuel attempts : Nat) (san : String),
      v3RetryLoop legal oracle fuel attempts = .ok san → san ∈ legal := by
  intro fuel
  induction fuel with
  | zero =>
    intro attempts san h
    exact absurd h (by simp [v3RetryLoop])
  | succ fuel ih =>
    intro attempts san h
    unfold v3RetryLoop at h
    dsimp only at h
    split at h
    · exact ih _ _ h
    · next moveNotation _ =>
      split at h
      · next hmem =>
        cases h
        exact hmem
      · exact ih _ _ h

theorem v3RetryLoop_all_invalid (legal : List String)
    (oracle : Nat → Option String)
    (hbad : ∀ i san, oracle i = some san → san ∉ legal) :
    ∀ fuel attempts : Nat,
      v3RetryLoop legal oracle fuel attempts =
        .error "Invalid move after 5 attempts" := by
  intro fuel
  induction fuel with
  | zero => intro attempts; rfl
  | succ fuel ih =>
    intro attempts
    unfold v3RetryLoop
    dsimp only
    split
    · exact ih _
    · next moveNotation horacle =>
      rw [if_neg (hbad _ _ horacle)]
      exact ih _

/- ### Claim theorems -/

/-- C1: for every input position with at least one legal move, a decision
call returns either a move that is a member of the legal-move set of that
position at call time, or a structured error; it never returns an illegal
move.  Both the proposer/critic route (`runAgenticWorkflowChain`) and the
retry-loop route (`v3DecideMove`) validate every candidate against the
rules engine before returning it. -/
theorem c1_decision_returns_legal_move_or_error
    (moves : List MoveCandidate) (selector : Nat → Option String)
    (evaluator : Nat → MoveEvaluation)
    (legal : List String) (oracle : Nat → Option String)
    (hmoves : moves ≠ []) :
    ((∃ msg, runAgenticWorkflowChain moves selector evaluator = .error msg)
      ∨ (∃ r, runAgenticWorkflowChain moves selector evaluator = .ok r
          ∧ r.move ∈ moves.map (fun m => m.san)))
    ∧ (∀ san, v3DecideMove legal oracle = .ok san → san ∈ legal) := by
  constructor
  · match hrun : runAgenticWorkflowChain moves selector evaluator with
    | .error msg => exact Or.inl ⟨msg, rfl⟩
    | .ok r =>
      refine Or.inr ⟨r, rfl, ?_⟩
      unfold runAgenticWorkflowChain at hrun
      exact (agenticLoop_ok_inv selector evaluator _ 5 0 moves [] none r hrun).1
  · intro san h
    exact v3RetryLoop_ok_mem legal oracle 5 0 san h

/-- C2: if no proposed candidate is ever approved and the candidate pool
becomes empty, the move finally applied equals the recorded AttemptRecord
with the maximum evaluation score among all attempts, ties broken in favor
of the earliest attempt. -/
theorem c2_pool_exhausted_fallback_is_earliest_argmax
    (moves : List MoveCandidate) (selector : Nat → Option String)
    (evaluator : Nat → MoveEvaluation) (r : WorkflowResult)
    (hok : runAgenticWorkflowChain moves selector evaluator = .ok r)
    (hfb : r.usedPoolFallback = true) :
    ∃ a, argmaxEarliest r.attemptHistory = some a
      ∧ r.move = a.move.san ∧ r.evaluation = a.evaluation := by
  unfold runAgenticWorkflowChain at hok
  obtain ⟨_, _, _, hfall⟩ :=
    agenticLoop_ok_inv selector evaluator _ 5 0 moves [] none r hok
  obtain ⟨a, hred, hmv, hev⟩ := hfall hfb
  refine ⟨a, ?_, hmv, hev⟩
  cases hl : r.attemptHistory with
  | nil =>
    rw [hl] at hred
    exact absurd hred (by simp [reduceBest])
  | cons h t =>
    rw [hl] at hred
    rw [reduceBest_eq_argmaxEarliest t h]
    exact hred

/-- C3: every decision call of the proposer/critic loop reports an
iteration count and an attempt-history length of at most the configured
bound of 5. -/
theorem c3_iterations_and_attempts_bounded
    (moves : List MoveCandidate) (selector : Nat → Option String)
    (evaluator : Nat → MoveEvaluation) (r : WorkflowResult)
    (hok : runAgenticWorkflowChain moves selector evaluator = .ok r) :
    r.iterations ≤ 5 ∧ r.attemptHistory.length ≤ 5 := by
  unfold runAgenticWorkflowChain at hok
  obtain ⟨_, hit, hlen, _⟩ :=
    agenticLoop_ok_inv selector evaluator _ 5 0 moves [] none r hok
  simp only [List.length_nil] at hlen
  exact ⟨by omega, by omega⟩

/-- C4: each phase classifier is a total function following the stated
policy — within the opening ply threshold it returns opening; past it,
material below 20 gives endgame and material at or above 20 gives
middlegame. -/
theorem c4_phase_classifier_total_policy (board : Board)
    (recentMoves : List String) (moveCount : Nat) :
    (determineGamePhase board recentMoves =
      (if recentMoves.length ≤ 8 then "opening"
       else if countMaterial board < 20 then "endgame"
       else "middlegame"))
    ∧ (determineGamePhaseV2 board moveCount =
      (if moveCount ≤ 2 then "opening"
       else if countMaterialV2 board < 20 then "endgame"
       else "middlegame")) :=
  ⟨determineGamePhase_eq_policy board recentMoves,
   determineGamePhaseV2_eq_policy board moveCount⟩

/-- C5: in the move scorer, every move whose simulated application yields
checkmate scores strictly higher than every move whose application does
not: the 1000 checkmate bonus dominates all other bonuses and penalties. -/
theorem c5_checkmate_dominates (m1 m2 : ScoredMoveInput)
    (h1 : m1.checkmateAfter = true) (h2 : m2.checkmateAfter = false) :
    scoreMove m2 < scoreMove m1 := by
  have hu := scoreMove_not_checkmate_upper m2 h2
  have hl := scoreMove_checkmate_lower m1 h1
  omega

/-- C6: when the oracle proposes an illegal notation on every attempt, the
retry-loop route terminates after at most 5 attempts with its structured
error, and the single-shot route answers with a move explicitly flagged
`fallback: true`; neither crashes nor silently substitutes an unflagged
move. -/
theorem c6_invalid_oracle_error_or_flagged_fallback
    (legal : List String) (oracle : Nat → Option String)
    (hbad : ∀ i san, oracle i = some san → san ∉ legal)
    (legalV1 : List String) (llmMove reasoning : String)
    (hne : legalV1 ≠ []) (hbad1 : llmMove ∉ legalV1) :
    v3DecideMove legal oracle = .error "Invalid move after 5 attempts"
    ∧ ∃ r, v1DecideMove legalV1 (some llmMove) reasoning = .ok r
        ∧ r.fallback = true := by
  constructor
  · exact v3RetryLoop_all_invalid legal oracle hbad 5 0
  · cases legalV1 with
    | nil => exact absurd rfl hne
    | cons a t =>
      have hfind : (a :: t).find? (fun san => san == llmMove) = none := by
        rw [List.find?_eq_none]
        intro x hx
        simp only [beq_iff_eq]
        intro hcontra
        exact hbad1 (hcontra ▸ hx)
      simp only [v1DecideMove]
      rw [hfind]
      exact ⟨_, rfl, rfl⟩

/-- C7: in the critic-output parsing, an explicit approved flag always
overrides the numeric score; with no flag, approval holds exactly when the
parsed score (defaulting to 5 when missing, hence not approved) is at
least 7. -/
theorem c7_critic_flag_precedence (scoreMatch : Option Nat)
    (captured : String) (rm sm : Option String) :
    ((parseEvaluation scoreMatch (some captured) rm sm).approved
        = (captured.toLower == "true"))
    ∧ ((parseEvaluation scoreMatch none rm sm).approved
        = decide (scoreMatch.getD 5 ≥ 7))
    ∧ (parseEvaluation none none rm sm).score = 5
    ∧ (parseEvaluation none none rm sm).approved = false := by
  refine ⟨rfl, ?_, rfl, rfl⟩
  cases scoreMatch <;> rfl

theorem strategyCheck_snd (s : StrategyState) (m : Int) (r : ServerResult) :
    (strategyCheck s m r).2 = shouldUpdateStrategy m s.lastUpdateMove := by
  unfold strategyCheck
  split_ifs with h
  · exact h.symm
  · simp only [Bool.not_eq_true] at h
    exact h.symm

/-- C8: the strategic-plan cache regenerates exactly when the ply delta
since the last refresh reaches the interval 3; two consecutive checks with
deltas below the interval leave the cached plan untouched and issue no
regeneration, and a successful regeneration stamps the last-refresh
counter with the current ply count. -/
theorem c8_cache_regeneration_cadence (s : StrategyState) (m1 m2 : Int)
    (r1 r2 : ServerResult) (data : StrategyData) :
    ((strategyCheck s m1 r1).2 = true ↔ m1 - s.lastUpdateMove ≥ 3)
    ∧ (m1 - s.lastUpdateMove < 3 → m2 - s.lastUpdateMove < 3 →
        strategyCheck s m1 r1 = (s, false)
        ∧ strategyCheck (strategyCheck s m1 r1).1 m2 r2 = (s, false))
    ∧ (m1 - s.lastUpdateMove ≥ 3 →
        (strategyCheck s m1 (.ok data)).1.lastUpdateMove = m1
        ∧ (strategyCheck s m1 (.ok data)).1.currentStrategy
            = some data.strategy) := by
  refine ⟨?_, ?_, ?_⟩
  · rw [strategyCheck_snd]
    unfold shouldUpdateStrategy STRATEGY_UPDATE_INTERVAL
    simp only [ge_iff_le, decide_eq_true_eq]
  · intro hd1 hd2
    have hf1 : shouldUpdateStrategy m1 s.lastUpdateMove = false := by
      unfold shouldUpdateStrategy STRATEGY_UPDATE_INTERVAL
      simp only [decide_eq_false_iff_not]
      omega
    have hf2 : shouldUpdateStrategy m2 s.lastUpdateMove = false := by
      unfold shouldUpdateStrategy STRATEGY_UPDATE_INTERVAL
      simp only [decide_eq_false_iff_not]
      omega
    have h1 : strategyCheck s m1 r1 = (s, false) := by
      unfold strategyCheck
      rw [hf1]
      simp
    rw [h1]
    refine ⟨rfl, ?_⟩
    unfold strategyCheck
    rw [hf2]
    simp
  · intro hd
    have ht : shouldUpdateStrategy m1 s.lastUpdateMove = true := by
      unfold shouldUpdateStrategy STRATEGY_UPDATE_INTERVAL
      simp only [decide_eq_true_eq]
      omega
    unfold strategyCheck
    rw [ht]
    simp only [if_true]
    exact ⟨rfl, rfl⟩

/-- C9 counterexample: with a previous plan in place and an oracle
response that cannot be parsed as JSON, the regeneration does NOT return
the previous plan — it stores the fixed default plan instead, so the claim
"returns the previous plan if one exists" fails on the code. -/
theorem c9_counterexample_unparseable_discards_previous_plan :
    c9prevState.currentStrategy = some c9prevPlan
    ∧ (generateStrategy c9prevState 3
        (tacticalAnalysisRoute false "middlegame" (some "not json")
          (fun _ => none))).currentStrategy ≠ some c9prevPlan
    ∧ (generateStrategy c9prevState 3
        (tacticalAnalysisRoute false "middlegame" (some "not json")
          (fun _ => none))).currentStrategy = some defaultStrategy := by
  refine ⟨rfl, ?_, rfl⟩
  decide

/-- C9 (amended): a failed regeneration never propagates a fatal error.
On an oracle error the previous plan (possibly absent) is kept, the
refresh counter is untouched and the failure surfaces as the non-fatal
error message; on an oracle response that cannot be parsed as JSON the
fixed neutral default plan is stored in place of any previous plan, with
no warning raised. -/
theorem c9_regeneration_failure_nonfatal (s : StrategyState)
    (moveCount : Int) (gamePhase raw : String)
    (parseJson : String → Option StrategyData) :
    ((generateStrategy s moveCount
        (tacticalAnalysisRoute false gamePhase none parseJson)).currentStrategy
          = s.currentStrategy
      ∧ (generateStrategy s moveCount
          (tacticalAnalysisRoute false gamePhase none parseJson)).error
            = some "Failed to generate tactical strategy"
      ∧ (generateStrategy s moveCount
          (tacticalAnalysisRoute false gamePhase none parseJson)).lastUpdateMove
            = s.lastUpdateMove)
    ∧ (parseJson raw = none →
        (generateStrategy s moveCount
          (tacticalAnalysisRoute false gamePhase (some raw) parseJson)).currentStrategy
            = some defaultStrategy
        ∧ (generateStrategy s moveCount
            (tacticalAnalysisRoute false gamePhase (some raw) parseJson)).error
              = none) := by
  constructor
  · exact ⟨rfl, rfl, rfl⟩
  · intro hparse
    simp only [tacticalAnalysisRoute, Bool.false_eq_true, if_false]
    rw [hparse]
    exact ⟨rfl, rfl⟩

/-- C10: the material counter of `chessUtils.ts` looks its full-name keys
up with the rules engine's single-letter piece types, so every lookup
misses and the count is 0 on every board; consequently its phase
classifier never depends on material — past the opening threshold it
always answers endgame. -/
theorem c10_material_lookup_always_misses (board : Board)
    (hvalid : ∀ i j p, board i j = some p → validPieceType p.type)
    (recentMoves : List String) :
    countMaterial board = 0
    ∧ determineGamePhase board recentMoves
        = (if recentMoves.length ≤ 8 then "opening" else "endgame") := by
  have h0 := countMaterial_valid_eq_zero board hvalid
  refine ⟨h0, ?_⟩
  rw [determineGamePhase_eq_policy, h0]
  split_ifs <;> first | rfl | omega

theorem c1_witness :
    ((∃ msg, runAgenticWorkflowChain [c1demoMove] (fun _ => some "e5")
        (fun _ => ⟨true, 8, "strong", none⟩) = .error msg)
      ∨ (∃ r, runAgenticWorkflowChain [c1demoMove] (fun _ => some "e5")
          (fun _ => ⟨true, 8, "strong", none⟩) = .ok r
          ∧ r.move ∈ [c1demoMove].map (fun m => m.san)))
    ∧ (∀ san, v3DecideMove ["e5"] (fun _ => some "e5") = .ok san
        → san ∈ ["e5"]) :=
  c1_decision_returns_legal_move_or_error [c1demoMove] (fun _ => some "e5")
    (fun _ => ⟨true, 8, "strong", none⟩) ["e5"] (fun _ => some "e5")
    (by decide)

theorem c2_witness :
    runAgenticWorkflowChain c2demoMoves c2demoSelector c2demoEvaluator
        = .ok c2demoResult
    ∧ c2demoResult.usedPoolFallback = true
    ∧ ∃ a, argmaxEarliest c2demoResult.attemptHistory = some a
        ∧ c2demoResult.move = a.move.san
        ∧ c2demoResult.evaluation = a.evaluation :=
  ⟨rfl, rfl,
   c2_pool_exhausted_fallback_is_earliest_argmax c2demoMoves c2demoSelector
     c2demoEvaluator c2demoResult rfl rfl⟩

theorem c3_witness :
    runAgenticWorkflowChain [⟨"e5", "e7", "e5", "p", none, "P from e7 to e5"⟩]
        (fun _ => some "e5") (fun _ => ⟨true, 8, "strong", none⟩)
        = .ok c3demoResult
    ∧ c3demoResult.iterations ≤ 5
    ∧ c3demoResult.attemptHistory.length ≤ 5 :=
  ⟨rfl,
   c3_iterations_and_attempts_bounded
     [⟨"e5", "e7", "e5", "p", none, "P from e7 to e5"⟩]
     (fun _ => some "e5") (fun _ => ⟨true, 8, "strong", none⟩)
     c3demoResult rfl⟩

theorem c5_witness :
    c5demoMate.checkmateAfter = true
    ∧ c5demoQuiet.checkmateAfter = false
    ∧ scoreMove c5demoQuiet < scoreMove c5demoMate :=
  ⟨rfl, rfl, c5_checkmate_dominates c5demoMate c5demoQuiet rfl rfl⟩

theorem c6_witness :
    v3DecideMove ["e5"] (fun _ => some "Qh9")
        = .error "Invalid move after 5 attempts"
    ∧ ∃ r, v1DecideMove ["Nf6"] (some "Qh9") "scripted" = .ok r
        ∧ r.fallback = true :=
  c6_invalid_oracle_error_or_flagged_fallback ["e5"] (fun _ => some "Qh9")
    (by intro i san hsan; injection hsan with h; rw [← h]; decide)
    ["Nf6"] "Qh9" "scripted" (by decide) (by decide)

theorem c8_witness :
    (strategyCheck c8demoState 1 ServerResult.gameOverResponse
        = (c8demoState, false)
      ∧ strategyCheck
          (strategyCheck c8demoState 1 ServerResult.gameOverResponse).1 2
          ServerResult.gameOverResponse = (c8demoState, false))
    ∧ ((strategyCheck c8demoState 3 (.ok c8demoData)).1.lastUpdateMove = 3
      ∧ (strategyCheck c8demoState 3 (.ok c8demoData)).1.currentStrategy
          = some c8demoData.strategy) :=
  ⟨(c8_cache_regeneration_cadence c8demoState 1 2 ServerResult.gameOverResponse
      ServerResult.gameOverResponse c8demoData).2.1 (by decide) (by decide),
   (c8_cache_regeneration_cadence c8demoState 3 0 ServerResult.gameOverResponse
      ServerResult.gameOverResponse c8demoData).2.2 (by decide)⟩

theorem c9_witness :
    ((generateStrategy c9prevState 3
        (tacticalAnalysisRoute false "middlegame" none
          (fun _ => none))).currentStrategy = c9prevState.currentStrategy
      ∧ (generateStrategy c9prevState 3
          (tacticalAnalysisRoute false "middlegame" none
            (fun _ => none))).error
              = some "Failed to generate tactical strategy"
      ∧ (generateStrategy c9prevState 3
          (tacticalAnalysisRoute false "middlegame" none
            (fun _ => none))).lastUpdateMove = c9prevState.lastUpdateMove)
    ∧ ((generateStrategy c9prevState 3
        (tacticalAnalysisRoute false "middlegame" (some "not json")
          (fun _ => none))).currentStrategy = some defaultStrategy
      ∧ (generateStrategy c9prevState 3
          (tacticalAnalysisRoute false "middlegame" (some "not json")
            (fun _ => none))).error = none) :=
  ⟨(c9_regeneration_failure_nonfatal c9prevState 3 "middlegame" "not json"
      (fun _ => none)).1,
   (c9_regeneration_failure_nonfatal c9prevState 3 "middlegame" "not json"
      (fun _ => none)).2 rfl⟩

theorem c10_witness :
    countMaterial c10demoBoard = 0
    ∧ determineGamePhase c10demoBoard
        ["d4", "d5", "c4", "e6", "Nc3", "Nf6", "Bg5", "Be7", "e3"]
      = (if (["d4", "d5", "c4", "e6", "Nc3", "Nf6", "Bg5", "Be7",
              "e3"] : List String).length ≤ 8 then "opening" else "endgame") :=
  c10_material_lookup_always_misses c10demoBoard
    (by intro i j p hp; injection hp with h; rw [← h]; decide)
    ["d4", "d5", "c4", "e6", "Nc3", "Nf6", "Bg5", "Be7", "e3"]
